import Mathlib

/-!
Verification development for the AllFoodSicily automated editorial pipeline
(repository `automazione-allfood`, package `allfoodsicily`).

The Python sources are shallowly embedded: pure computations become Lean
functions, and the asyncio fan-out machinery (`asyncio.gather` over tasks
guarded by an `asyncio.Semaphore`) becomes a small-step scheduler over an
explicit state, quantified over all interleavings.
-/

namespace AllFood

/-! ## Configuration constants

From `config/settings.py` and `config/sources.py`. -/

/-- `settings.MAX_CONCURRENT_SCRAPES`, default value `5`
(`config/settings.py`, line 39). -/
def MAX_CONCURRENT_SCRAPES : Nat := 5

/-- The hard-coded semaphore capacity for article generation:
`asyncio.Semaphore(3)` in `workflow/generation_phase.py`, line 84. -/
def generationMaxConcurrent : Nat := 3

/-- `SEARCH_QUERIES` from `config/sources.py`, lines 55-59. -/
def SEARCH_QUERIES : List String :=
  ["novità food sicilia", "ristoranti sicilia", "gastronomia siciliana"]

/-! ## Bounded parallel fan-out (semaphore + `asyncio.gather`)

Both `scrape_sites_parallel` (`services/gemini_search.py`, lines 572-599)
and `generate_all_articles_parallel` (`workflow/generation_phase.py`,
lines 82-108) follow the same pattern: create one task per input unit,
each task acquires a semaphore of fixed capacity, runs its unit, releases
the permit (the `async with` block guarantees release on every exit path),
and `asyncio.gather(*tasks, return_exceptions=True)` collects one outcome
per task, in task-creation order, an exception being stored in its own
slot instead of propagating.

We model this as a transition system.  Units are indexed `0, …, n-1`; the
outcome of unit `i` is `run i : Except String β` (`.error` models a raised
exception, `.ok` a returned value; each unit's outcome depends only on its
own input, matching the source where tasks share no mutable state other
than the semaphore).  A schedule is an arbitrary list of actions; invalid
actions are ignored, so quantifying over all action lists quantifies over
all interleavings the event loop could produce. -/

/-- State of one fan-out: tasks not yet holding a permit, tasks currently
holding a permit, and the result slot of each task (`none` = not settled). -/
structure FanoutState (β : Type) where
  waiting : List Nat
  running : List Nat
  results : List (Option (Except String β))

/-- A scheduler action: `start i` = task `i` acquires a permit and begins;
`finish i` = task `i` completes (its outcome is recorded in slot `i`) and
releases its permit. -/
inductive FanoutAction where
  | start (i : Nat)
  | finish (i : Nat)

/-- One scheduler step.  `start i` fires only when `i` is waiting and a
permit is free (`running.length < cap`, the semaphore bound); `finish i`
fires only when `i` is running, and writes `run i` into slot `i`
(`asyncio.gather(return_exceptions=True)` stores exceptions per-slot). -/
def fanoutStep (cap : Nat) (run : Nat → Except String β) (s : FanoutState β) :
    FanoutAction → FanoutState β
  | .start i =>
    if i ∈ s.waiting ∧ s.running.length < cap then
      { s with waiting := s.waiting.erase i, running := i :: s.running }
    else s
  | .finish i =>
    if i ∈ s.running then
      { s with running := s.running.erase i,
               results := s.results.set i (some (run i)) }
    else s

/-- Initial state: all `n` tasks created (in input order), no permit held,
no slot settled. -/
def fanoutInit (β : Type) (n : Nat) : FanoutState β :=
  ⟨List.range n, [], List.replicate n none⟩

/-- Run a schedule from the initial state. -/
def fanoutExec (cap n : Nat) (run : Nat → Except String β)
    (acts : List FanoutAction) : FanoutState β :=
  acts.foldl (fanoutStep cap run) (fanoutInit β n)

/-- Invariant of the fan-out: slot list has one entry per unit, at most
`cap` permit holders, task indices in range, and every slot is either
still owed to a waiting/running task or already holds that unit's own
outcome. -/
structure FanoutInv (cap n : Nat) (run : Nat → Except String β)
    (s : FanoutState β) : Prop where
  results_length : s.results.length = n
  running_le : s.running.length ≤ cap
  waiting_lt : ∀ i ∈ s.waiting, i < n
  running_lt : ∀ i ∈ s.running, i < n
  slots : ∀ i, i < n →
    i ∈ s.waiting ∨ i ∈ s.running ∨ s.results[i]? = some (some (run i))

/-! ## Search results and URL deduplication

From `search_food_news` (`services/gemini_search.py`).  The dedup pass at
lines 388-400 walks the aggregated list once with a seen-URL set:
`url = result.get("url", "")`, and the item is kept only when
`url and url not in seen_urls` — a falsy (empty) URL therefore falls into
the `else` branch, which increments the `duplicates` counter and does not
append the item. -/

/-- One search result, `{url, title, snippet}`; an absent `url` key is read
as `""` by the source (`result.get("url", "")`). -/
structure SearchResult where
  url : String
  title : String
  snippet : String
deriving DecidableEq

/-- The deduplication loop of `search_food_news`
(`services/gemini_search.py`, lines 390-400), with the mutable
`seen_urls` set made an explicit parameter.  Returns the kept items and
the `duplicates` counter. -/
def removeDuplicatesAux (seen : List String) :
    List SearchResult → List SearchResult × Nat
  | [] => ([], 0)
  | r :: rest =>
    if r.url ≠ "" ∧ r.url ∉ seen then
      let p := removeDuplicatesAux (r.url :: seen) rest
      (r :: p.1, p.2)
    else
      let p := removeDuplicatesAux seen rest
      (p.1, p.2 + 1)

/-- `unique_results` as computed at the end of `search_food_news`. -/
def removeDuplicates (results : List SearchResult) : List SearchResult :=
  (removeDuplicatesAux [] results).1

/-! ## The search stage (`search_food_news`)

`services/gemini_search.py`, lines 198-413.  The function first runs all
configured queries through a parallel `asyncio.gather` fan-out
(`search_all_queries_parallel`, lines 220-257) and flattens the per-query
result lists in query order; then — unconditionally — the leftover
sequential block at lines 259-386 iterates over `SEARCH_QUERIES` again,
issuing each query to the oracle a second time and extending
`all_results`; finally the deduplication pass runs.  The oracle is
abstracted as a function from query text to its result list, and the
model additionally returns the log of queries issued, in order. -/

/-- Model of `search_food_news`: returns the deduplicated result list and
the ordered log of oracle invocations (one entry per issued query). -/
def search_food_news (oracle : String → List SearchResult) :
    List SearchResult × List String :=
  let parallelResults := (SEARCH_QUERIES.map oracle).flatten
  let afterParallel : List SearchResult × List String :=
    (parallelResults, SEARCH_QUERIES)
  let afterSequential := SEARCH_QUERIES.foldl
    (fun (acc : List SearchResult × List String) q =>
      (acc.1 ++ oracle q, acc.2 ++ [q]))
    afterParallel
  (removeDuplicates afterSequential.1, afterSequential.2)

/-! ## The scrape stage (`scrape_sites_parallel`)

`services/gemini_search.py`, lines 511-636.  `scrape_url_async` wraps the
blocking scrape in `asyncio.wait_for(..., timeout=60.0)` and catches both
`asyncio.TimeoutError` and every other exception, returning `None` in all
failure cases.  The result-processing loop (lines 601-634) then counts a
`None` slot as `failed`, a non-`None` slot as `successful` and appends it
to the output; the `timeout_count` variable is initialised to `0` and is
never incremented anywhere in the function. -/

/-- What happened inside one per-site scrape unit. -/
inductive ScrapeOutcome where
  | success (title content : String)
  | noContent
  | timeout
  | failure (msg : String)
deriving DecidableEq

/-- One element of the scrape stage output. -/
structure ScrapedContent where
  url : String
  title : String
  content : String
deriving DecidableEq

/-- `scrape_url_async` (`services/gemini_search.py`, lines 511-543):
success with content yields a result dict; an empty extraction, a
60-second timeout, or any exception all yield `None`. -/
def scrape_url_async (url : String) (o : ScrapeOutcome) :
    Option ScrapedContent :=
  match o with
  | .success t c => some ⟨url, t, c⟩
  | .noContent => none
  | .timeout => none
  | .failure _ => none

/-- The summary tallies of one `scrape_sites_parallel` run. -/
structure ScrapeSummary where
  scraped : List ScrapedContent
  successful : Nat
  failed : Nat
  timeout_count : Nat
deriving DecidableEq

/-- The result-processing loop of `scrape_sites_parallel`
(`services/gemini_search.py`, lines 601-634): starts from
`scraped_content = []`, `successful = failed = timeout_count = 0`;
a settled `None` increments `failed`, a settled result is appended and
increments `successful`; nothing increments `timeout_count`. -/
def processScrapeResults (results : List (Option ScrapedContent)) :
    ScrapeSummary :=
  results.foldl
    (fun acc r =>
      match r with
      | some c =>
        { acc with scraped := acc.scraped ++ [c],
                   successful := acc.successful + 1 }
      | none => { acc with failed := acc.failed + 1 })
    ⟨[], 0, 0, 0⟩

/-- `scrape_sites_parallel` over a list of sites, each given with the
outcome of its scrape unit: per-site `scrape_url_async`, then the tally
loop.  (The gather layer that makes slot `i` hold site `i`'s outcome is
verified separately on the fan-out model.) -/
def scrape_sites_parallel (sites : List (String × ScrapeOutcome)) :
    ScrapeSummary :=
  processScrapeResults (sites.map fun s => scrape_url_async s.1 s.2)

/-! ## Keyword extraction (`_extract_keywords`)

`workflow/manual_workflow.py`, lines 200-227. -/

/-- The fixed Italian stopword set of `_extract_keywords`
(`workflow/manual_workflow.py`, lines 213-219). -/
def italianStopwords : List String :=
  ["un", "una", "il", "la", "i", "le", "gli", "lo",
   "di", "da", "in", "su", "per", "con", "tra", "fra",
   "e", "o", "ma", "se", "che", "del", "della", "dei",
   "delle", "al", "alla", "ai", "alle", "sul", "sulla",
   "sui", "sulle", "nel", "nella", "nei", "nelle"]

/-- Python `str.lower()`, character by character (the inputs at stake are
ASCII). -/
def pyToLower (s : String) : String :=
  String.mk (s.data.map Char.toLower)

/-- Helper for `pySplitWhitespace`: walk the characters, accumulating the
current (reversed) field, emitting it at each whitespace run. -/
def pySplitWhitespaceAux : List Char → List Char → List String
  | [], acc => if acc.isEmpty then [] else [String.mk acc.reverse]
  | c :: rest, acc =>
    if c.isWhitespace then
      if acc.isEmpty then pySplitWhitespaceAux rest []
      else String.mk acc.reverse :: pySplitWhitespaceAux rest []
    else pySplitWhitespaceAux rest (c :: acc)

/-- Python `str.split()` with no separator: split on whitespace runs and
drop empty fields. -/
def pySplitWhitespace (s : String) : List String :=
  pySplitWhitespaceAux s.data []

/-- The intermediate `keywords` list of `_extract_keywords`
(`workflow/manual_workflow.py`, line 221): lowercase and split the topic
text, keep the tokens that are not stopwords and have length > 2. -/
def filteredKeywords (topic : String) : List String :=
  (pySplitWhitespace (pyToLower topic)).filter fun w =>
    !(italianStopwords.contains w) && decide (2 < w.length)

/-- `_extract_keywords` (`workflow/manual_workflow.py`, lines 200-227):
filter as above, append `"Sicilia"` when no kept token equals
`"sicilia"` case-insensitively, and finally truncate to 5 entries. -/
def extractKeywords (topic : String) : List String :=
  let keywords := filteredKeywords topic
  let keywords :=
    if "sicilia" ∈ keywords.map pyToLower then keywords
    else keywords ++ ["Sicilia"]
  keywords.take 5

/-! ## Selection stage and retry wrapper

`analyze_topics` (`services/gemini_client.py`, lines 25-107) asks the
oracle for a structured topics JSON; a response that fails `json.loads`
or the `TopicsResponse` pydantic validation raises (the `except` clauses
at lines 101-107 re-raise).  The whole method carries the decorator
`@retry_api_call(max_attempts=3)` (`utils/retry.py`, lines 18-48):
tenacity with `stop_after_attempt(3)`, retry on any `Exception`, and
`reraise=True`, so a failing call is re-attempted and only the third
consecutive failure propagates to the caller. -/

/-- Topic as in `models/schemas.py`. -/
structure Topic where
  titolo : String
  angolo : String
  fonti : List String
  keywords : List String
deriving DecidableEq

/-- One undecorated `analyze_topics` body call: the oracle response is
abstracted to its parse outcome — `none` when the text is not parseable
as the `TopicsResponse` shape (raises), `some topics` otherwise. -/
def analyzeTopicsOnce (parsed : Option (List Topic)) :
    Except String (List Topic) :=
  match parsed with
  | none => .error "Expecting value: malformed oracle response"
  | some topics => .ok topics

/-- The tenacity loop of `retry_api_call` (`utils/retry.py`): run the
call; on success stop; on error retry while attempts remain, and reraise
the last error once `maxAttempts` calls have been made.  Returns the
final outcome and the number of calls actually made.  `call k` is the
outcome of the `k`-th invocation (1-based). -/
def retryFrom (call : Nat → Except String α) (attempt : Nat) :
    Nat → Except String α × Nat
  | 0 => (.error "no attempts allowed", 0)
  | remaining + 1 =>
    match call attempt with
    | .ok a => (.ok a, 1)
    | .error e =>
      if remaining = 0 then (.error e, 1)
      else
        let p := retryFrom call (attempt + 1) remaining
        (p.1, p.2 + 1)

/-- `retry_api_call(max_attempts)` applied to a call. -/
def retry_api_call (maxAttempts : Nat) (call : Nat → Except String α) :
    Except String α × Nat :=
  retryFrom call 1 maxAttempts

/-- The decorated `analyze_topics` as the orchestrator sees it: the body
wrapped in `retry_api_call(max_attempts=3)`; `parsedAttempts k` is the
parse outcome of the `k`-th oracle call. -/
def analyze_topics (parsedAttempts : Nat → Option (List Topic)) :
    Except String (List Topic) × Nat :=
  retry_api_call 3 (fun k => analyzeTopicsOnce (parsedAttempts k))

/-! ## The orchestrators (`main.py`)

`scheduled_workflow_job` (lines 18-89) and `run_workflow_once`
(lines 92-176).  Each phase is abstracted to its outcome
(`Except String _` — `.error` models a raised exception).  The traces
record which later phases were invoked, the `WorkflowResult` constructed,
what was handed to `send_workflow_summary`, and the message handed to
`send_error_notification`. -/

/-- Article as in `models/schemas.py` (fields relevant to the claims). -/
structure Article where
  title : String
  content : String
  word_count : Nat
deriving DecidableEq

/-- `WorkflowResult` from `models/schemas.py` (the `docs` list is always
`[]` in both orchestrators and the timestamp string is irrelevant to the
claims, so both are omitted). -/
structure WorkflowResult where
  articles : List Article
  sources_monitored : Nat
  success : Bool
  error_message : Option String
deriving DecidableEq

/-- The abstracted outcomes of the five workflow phases. -/
structure PhaseOutcomes where
  search : Except String (List SearchResult)
  scrape : Except String (List ScrapedContent)
  analysis : Except String (List Topic)
  generation : List Topic → Except String (List Article)
  output : List Article → Except String Unit

/-- Observable trace of one `scheduled_workflow_job` run. -/
structure JobTrace where
  result : Option WorkflowResult
  generation_invoked : Bool
  output_invoked : Bool
  summary_delivered : Option WorkflowResult
  error_notified : Option String
deriving DecidableEq

/-- The `except Exception` path of `scheduled_workflow_job`
(`main.py`, lines 84-89): no `WorkflowResult` is constructed, nothing is
handed to `send_workflow_summary`, and `send_error_notification` is
invoked with the prefixed exception message. -/
def jobErrorTrace (genInv outInv : Bool) (msg : String) : JobTrace :=
  { result := none, generation_invoked := genInv,
    output_invoked := outInv, summary_delivered := none,
    error_notified := some ("Errore workflow automatico: " ++ msg) }

/-- `scheduled_workflow_job` (`main.py`, lines 18-89): phases run in
sequence inside one `try`; empty topic list short-circuits to a failure
`WorkflowResult` which is still delivered; any raised exception lands in
the `except` handler.  `nSites = len(ALL_SITES)`. -/
def scheduled_workflow_job (ph : PhaseOutcomes) (nSites : Nat) : JobTrace :=
  match ph.search with
  | .error e => jobErrorTrace false false e
  | .ok _ =>
    match ph.scrape with
    | .error e => jobErrorTrace false false e
    | .ok _ =>
      match ph.analysis with
      | .error e => jobErrorTrace false false e
      | .ok topics =>
        if topics.isEmpty then
          let result : WorkflowResult :=
            { articles := [], sources_monitored := nSites, success := false,
              error_message := some "No topics selected from analysis" }
          { result := some result, generation_invoked := false,
            output_invoked := false, summary_delivered := some result,
            error_notified := none }
        else
          match ph.generation topics with
          | .error e => jobErrorTrace true false e
          | .ok articles =>
            match ph.output articles with
            | .error e => jobErrorTrace true true e
            | .ok _ =>
              let result : WorkflowResult :=
                { articles := articles, sources_monitored := nSites,
                  success := true, error_message := none }
              { result := some result, generation_invoked := true,
                output_invoked := true, summary_delivered := some result,
                error_notified := none }

/-- Observable trace of one `run_workflow_once` run (the `--now` path). -/
structure OnceTrace where
  summary_delivered : Option WorkflowResult
  exit_code : Option Nat
  generation_invoked : Bool
  output_invoked : Bool
deriving DecidableEq

/-- `run_workflow_once` (`main.py`, lines 92-176): on an empty topic list
it constructs the failure `WorkflowResult` and then calls `sys.exit(1)`
(line 139) before any delivery; a raised exception is caught at line 174
and also ends in `sys.exit(1)`; only the success path delivers a summary. -/
def run_workflow_once (ph : PhaseOutcomes) (nSites : Nat) : OnceTrace :=
  match ph.search with
  | .error _ => ⟨none, some 1, false, false⟩
  | .ok _ =>
    match ph.scrape with
    | .error _ => ⟨none, some 1, false, false⟩
    | .ok _ =>
      match ph.analysis with
      | .error _ => ⟨none, some 1, false, false⟩
      | .ok topics =>
        if topics.isEmpty then
          ⟨none, some 1, false, false⟩
        else
          match ph.generation topics with
          | .error _ => ⟨none, some 1, true, false⟩
          | .ok articles =>
            match ph.output articles with
            | .error _ => ⟨none, some 1, true, true⟩
            | .ok _ =>
              ⟨some { articles := articles, sources_monitored := nSites,
                      success := true, error_message := none },
               none, true, true⟩

/-- Concrete phase outcomes: search and scrape succeed (with no results),
the Analyze stage returns an empty topic list. -/
def phasesNoTopics : PhaseOutcomes :=
  { search := .ok [], scrape := .ok [], analysis := .ok [],
    generation := fun _ => .ok [], output := fun _ => .ok () }

/-- Concrete phase outcomes: one topic selected, every article generation
fails, so the Generate stage returns zero articles. -/
def phasesZeroArticles : PhaseOutcomes :=
  { search := .ok [], scrape := .ok [],
    analysis := .ok [⟨"Sagra del pistacchio a Bronte", "evento", [], []⟩],
    generation := fun _ => .ok [], output := fun _ => .ok () }

/-- Concrete phase outcomes: the Analyze stage raises because the oracle
response could not be parsed as the expected structured shape. -/
def phasesMalformed : PhaseOutcomes :=
  { search := .ok [], scrape := .ok [],
    analysis := .error "Expecting value: malformed oracle response",
    generation := fun _ => .ok [], output := fun _ => .ok () }

/-! ## Theorems -/

theorem fanoutInv_init (cap n : Nat) (run : Nat → Except String β) :
    FanoutInv cap n run (fanoutInit β n) := by
  refine ⟨?_, ?_, ?_, ?_, ?_⟩
  · simp [fanoutInit]
  · simp [fanoutInit]
  · intro i hi; simpa [fanoutInit] using List.mem_range.mp (by simpa [fanoutInit] using hi)
  · intro i hi; simp [fanoutInit] at hi
  · intro i hi; exact Or.inl (by simpa [fanoutInit] using List.mem_range.mpr hi)

theorem fanoutInv_step (cap n : Nat) (run : Nat → Except String β)
    (s : FanoutState β) (a : FanoutAction) (h : FanoutInv cap n run s) :
    FanoutInv cap n run (fanoutStep cap run s a) := by
  cases a with
  | start i =>
    by_cases hc : i ∈ s.waiting ∧ s.running.length < cap
    · simp only [fanoutStep, if_pos hc]
      refine ⟨h.results_length, ?_, ?_, ?_, ?_⟩
      · simpa using hc.2
      · intro j hj
        exact h.waiting_lt j (List.mem_of_mem_erase hj)
      · intro j hj
        rcases List.mem_cons.mp hj with rfl | hj'
        · exact h.waiting_lt j hc.1
        · exact h.running_lt j hj'
      · intro j hjn
        rcases h.slots j hjn with hw | hr | hres
        · by_cases hji : j = i
          · subst hji; exact Or.inr (Or.inl (List.mem_cons_self _ _))
          · exact Or.inl ((List.mem_erase_of_ne hji).mpr hw)
        · exact Or.inr (Or.inl (List.mem_cons_of_mem _ hr))
        · exact Or.inr (Or.inr hres)
    · simpa [fanoutStep, if_neg hc] using h
  | finish i =>
    by_cases hc : i ∈ s.running
    · simp only [fanoutStep, if_pos hc]
      have hlen : (s.running.erase i).length ≤ cap :=
        le_trans (List.Sublist.length_le (List.erase_sublist i s.running))
          h.running_le
      have hin : i < n := h.running_lt i hc
      refine ⟨?_, hlen, h.waiting_lt, ?_, ?_⟩
      · simpa [List.length_set] using h.results_length
      · intro j hj
        exact h.running_lt j (List.mem_of_mem_erase hj)
      · intro j hjn
        by_cases hji : j = i
        · subst hji
          refine Or.inr (Or.inr ?_)
          have : j < s.results.length := h.results_length ▸ hjn
          simp [List.getElem?_set, this]
        · rcases h.slots j hjn with hw | hr | hres
          · exact Or.inl hw
          · exact Or.inr (Or.inl ((List.mem_erase_of_ne hji).mpr hr))
          · refine Or.inr (Or.inr ?_)
            have hne : ¬ i = j := fun h2 => hji h2.symm
            rw [List.getElem?_set]
            simp [hne, hres]
    · simpa [fanoutStep, if_neg hc] using h

theorem fanoutInv_exec (cap n : Nat) (run : Nat → Except String β)
    (acts : List FanoutAction) :
    FanoutInv cap n run (fanoutExec cap n run acts) := by
  rw [fanoutExec]
  generalize hini : fanoutInit β n = s0
  have h0 : FanoutInv cap n run s0 := hini ▸ fanoutInv_init cap n run
  clear hini
  induction acts generalizing s0 with
  | nil => simpa using h0
  | cons a rest ih =>
    simpa using ih _ (fanoutInv_step cap n run s0 a h0)

/-- Claim C1: for every list of units fanned out through the bounded
parallel runner (the `asyncio.gather` fan-outs of the scrape stage and
the article-generation stage) and every complete interleaving (all tasks
settled), the results list has exactly one slot per input unit, slot `i`
holds exactly unit `i`'s own outcome regardless of start/finish order,
and a unit that raised (`run i = .error _`) produces an error result in
its own slot only — the sibling slots still hold their own units'
outcomes and the batch is not aborted. -/
theorem C1_gather_order_and_failure_isolation {β : Type}
    (run : Nat → Except String β) (cap n : Nat) (acts : List FanoutAction)
    (hw : (fanoutExec cap n run acts).waiting = [])
    (hr : (fanoutExec cap n run acts).running = []) :
    (fanoutExec cap n run acts).results.length = n ∧
    ∀ i, i < n →
      (fanoutExec cap n run acts).results[i]? = some (some (run i)) := by
  have hinv := fanoutInv_exec cap n run acts
  refine ⟨hinv.results_length, ?_⟩
  intro i hi
  rcases hinv.slots i hi with h1 | h2 | h3
  · rw [hw] at h1; exact absurd h1 (List.not_mem_nil i)
  · rw [hr] at h2; exact absurd h2 (List.not_mem_nil i)
  · exact h3

/-- Witness for C1: three units, capacity 2, unit 1 raising, under a
schedule whose completion order (1, 2, 0) differs from input order:
every slot settles with its own unit's outcome, the error confined to
slot 1. -/
theorem C1_gather_order_and_failure_isolation_witness :
    (fanoutExec 2 3 (fun i => if i = 1 then Except.error "boom" else Except.ok i)
      [.start 0, .start 1, .finish 1, .start 2, .finish 2, .finish 0]).results.length = 3 ∧
    (fanoutExec 2 3 (fun i => if i = 1 then Except.error "boom" else Except.ok i)
      [.start 0, .start 1, .finish 1, .start 2, .finish 2, .finish 0]).results[0]? =
        some (some (Except.ok 0)) ∧
    (fanoutExec 2 3 (fun i => if i = 1 then Except.error "boom" else Except.ok i)
      [.start 0, .start 1, .finish 1, .start 2, .finish 2, .finish 0]).results[1]? =
        some (some (Except.error "boom")) ∧
    (fanoutExec 2 3 (fun i => if i = 1 then Except.error "boom" else Except.ok i)
      [.start 0, .start 1, .finish 1, .start 2, .finish 2, .finish 0]).results[2]? =
        some (some (Except.ok 2)) := by
  have h := C1_gather_order_and_failure_isolation
    (fun i => if i = 1 then Except.error "boom" else Except.ok i) 2 3
    [.start 0, .start 1, .finish 1, .start 2, .finish 2, .finish 0]
    (by decide) (by decide)
  exact ⟨h.1, h.2 0 (by decide), h.2 1 (by decide), h.2 2 (by decide)⟩

/-- Claim C2: at every instant of a scrape-stage or article-generation
run (i.e. after any prefix of any interleaving), the number of tasks
holding the semaphore is at most the configured capacity —
`MAX_CONCURRENT_SCRAPES` (default 5) for scrapes and 3 for article
generation — whatever the number of submitted units. -/
theorem C2_semaphore_capacity_bound {β : Type}
    (runS runG : Nat → Except String β) (nS nG : Nat)
    (actsS actsG : List FanoutAction) :
    (fanoutExec MAX_CONCURRENT_SCRAPES nS runS actsS).running.length
        ≤ MAX_CONCURRENT_SCRAPES ∧
    (fanoutExec generationMaxConcurrent nG runG actsG).running.length
        ≤ generationMaxConcurrent :=
  ⟨(fanoutInv_exec MAX_CONCURRENT_SCRAPES nS runS actsS).running_le,
   (fanoutInv_exec generationMaxConcurrent nG runG actsG).running_le⟩

theorem removeDuplicatesAux_sublist (seen : List String)
    (l : List SearchResult) : List.Sublist (removeDuplicatesAux seen l).1 l := by
  induction l generalizing seen with
  | nil => simp [removeDuplicatesAux]
  | cons r rest ih =>
    by_cases hc : r.url ≠ "" ∧ r.url ∉ seen
    · simpa [removeDuplicatesAux, if_pos hc] using
        List.Sublist.cons₂ r (ih (r.url :: seen))
    · simpa [removeDuplicatesAux, if_neg hc] using
        List.Sublist.cons r (ih seen)

theorem removeDuplicatesAux_mem (seen : List String) (l : List SearchResult)
    (r : SearchResult) (h : r ∈ (removeDuplicatesAux seen l).1) :
    r.url ≠ "" ∧ r.url ∉ seen := by
  induction l generalizing seen with
  | nil => simp [removeDuplicatesAux] at h
  | cons x rest ih =>
    by_cases hc : x.url ≠ "" ∧ x.url ∉ seen
    · simp only [removeDuplicatesAux, if_pos hc] at h
      rcases List.mem_cons.mp h with rfl | h'
      · exact hc
      · have hrec := ih (x.url :: seen) h'
        exact ⟨hrec.1, fun hm => hrec.2 (List.mem_cons_of_mem _ hm)⟩
    · simp only [removeDuplicatesAux, if_neg hc] at h
      exact ih seen h

theorem removeDuplicatesAux_nodup (seen : List String)
    (l : List SearchResult) :
    ((removeDuplicatesAux seen l).1.map (fun r => r.url)).Nodup := by
  induction l generalizing seen with
  | nil => simp [removeDuplicatesAux]
  | cons x rest ih =>
    by_cases hc : x.url ≠ "" ∧ x.url ∉ seen
    · simp only [removeDuplicatesAux, if_pos hc, List.map_cons,
        List.nodup_cons]
      refine ⟨?_, ih (x.url :: seen)⟩
      intro hmem
      rcases List.mem_map.mp hmem with ⟨r, hr, hru⟩
      exact (removeDuplicatesAux_mem _ _ _ hr).2
        (hru ▸ List.mem_cons_self _ _)
    · simpa [removeDuplicatesAux, if_neg hc] using ih seen

theorem removeDuplicatesAux_covers (seen : List String)
    (l : List SearchResult) (r : SearchResult) (hr : r ∈ l)
    (hne : r.url ≠ "") :
    r.url ∈ seen ∨ ∃ x ∈ (removeDuplicatesAux seen l).1, x.url = r.url := by
  induction l generalizing seen with
  | nil => simp at hr
  | cons x rest ih =>
    by_cases hc : x.url ≠ "" ∧ x.url ∉ seen
    · simp only [removeDuplicatesAux, if_pos hc]
      rcases List.mem_cons.mp hr with rfl | hr'
      · exact Or.inr ⟨_, List.mem_cons_self _ _, rfl⟩
      · rcases ih (x.url :: seen) hr' with hseen | ⟨y, hy, hyu⟩
        · rcases List.mem_cons.mp hseen with heq | hseen'
          · exact Or.inr ⟨x, List.mem_cons_self _ _, heq.symm⟩
          · exact Or.inl hseen'
        · exact Or.inr ⟨y, List.mem_cons_of_mem _ hy, hyu⟩
    · simp only [removeDuplicatesAux, if_neg hc]
      rcases List.mem_cons.mp hr with rfl | hr'
      · left
        by_contra hmem
        exact hc ⟨hne, hmem⟩
      · exact ih seen hr'

/-- Claim C3, counterexample: deduplicating a list of two items both with
url `""` yields 0 items, not the 2 the claim asserts — a falsy URL sends
the item into the `else` branch of the loop, which discards it. -/
theorem C3_counterexample :
    (removeDuplicates [⟨"", "a", "s1"⟩, ⟨"", "b", "s2"⟩]).length = 0 ∧
    (removeDuplicates [⟨"", "a", "s1"⟩, ⟨"", "b", "s2"⟩]).length ≠ 2 := by
  exact ⟨rfl, by decide⟩

/-- Claim C3 (amended): the dedup pass returns items in first-seen order
(a sublist of the input) with each non-empty URL occurring exactly once
(every kept item has a non-empty URL, kept URLs are pairwise distinct,
and every non-empty URL of the input is represented); items whose URL is
empty or absent are dropped from the output (counted as duplicates), not
retained. -/
theorem C3_dedupe_amended (l : List SearchResult) :
    List.Sublist (removeDuplicates l) l ∧
    (∀ r ∈ removeDuplicates l, r.url ≠ "") ∧
    ((removeDuplicates l).map (fun r => r.url)).Nodup ∧
    (∀ r ∈ l, r.url ≠ "" → ∃ x ∈ removeDuplicates l, x.url = r.url) := by
  refine ⟨removeDuplicatesAux_sublist [] l, ?_, removeDuplicatesAux_nodup [] l, ?_⟩
  · intro r hr
    exact (removeDuplicatesAux_mem [] l r hr).1
  · intro r hr hne
    rcases removeDuplicatesAux_covers [] l r hr hne with hseen | hex
    · simp at hseen
    · exact hex

/-- Witness for C3 (amended), on a concrete list with a duplicate key and
an empty-keyed item in between. -/
theorem C3_dedupe_amended_witness :
    List.Sublist
      (removeDuplicates
        [⟨"u1", "t1", "s1"⟩, ⟨"", "t2", "s2"⟩, ⟨"u1", "t3", "s3"⟩])
      [⟨"u1", "t1", "s1"⟩, ⟨"", "t2", "s2"⟩, ⟨"u1", "t3", "s3"⟩] ∧
    (⟨"u1", "t1", "s1"⟩ : SearchResult).url ≠ "" ∧
    ∃ x ∈ removeDuplicates
        [⟨"u1", "t1", "s1"⟩, ⟨"", "t2", "s2"⟩, ⟨"u1", "t3", "s3"⟩],
      x.url = (⟨"u1", "t1", "s1"⟩ : SearchResult).url := by
  have h := C3_dedupe_amended
    [⟨"u1", "t1", "s1"⟩, ⟨"", "t2", "s2"⟩, ⟨"u1", "t3", "s3"⟩]
  exact ⟨h.1, by decide, h.2.2.2 ⟨"u1", "t1", "s1"⟩ (by decide) (by decide)⟩

/-- Claim C4, counterexample: on the `--now` entry point
(`run_workflow_once`, one of the two orchestrator paths the claim covers),
an empty topic list makes the process exit with code 1 and nothing is
ever handed to the delivery channel — the failure run result is not
delivered. -/
theorem C4_counterexample :
    (run_workflow_once phasesNoTopics 8).summary_delivered = none ∧
    (run_workflow_once phasesNoTopics 8).summary_delivered.isSome = false ∧
    (run_workflow_once phasesNoTopics 8).exit_code = some 1 :=
  ⟨rfl, rfl, rfl⟩

/-- Claim C4 (amended): when the Analyze stage returns an empty topic
list, the scheduled job ends with `success=false`, an error message
mentioning that no topics were selected, an empty articles list, never
invokes Generate or Output, and still hands the failure result to the
delivery channel; the immediate `--now` path, by contrast, constructs the
failure result but exits the process with code 1 before delivering
anything. -/
theorem C4_no_topics_amended (ph : PhaseOutcomes) (nSites : Nat)
    (s : List SearchResult) (hs : ph.search = .ok s)
    (c : List ScrapedContent) (hc : ph.scrape = .ok c)
    (ha : ph.analysis = .ok []) :
    ((scheduled_workflow_job ph nSites).result =
        some { articles := [], sources_monitored := nSites, success := false,
               error_message := some "No topics selected from analysis" } ∧
      (scheduled_workflow_job ph nSites).generation_invoked = false ∧
      (scheduled_workflow_job ph nSites).output_invoked = false ∧
      (scheduled_workflow_job ph nSites).summary_delivered =
        (scheduled_workflow_job ph nSites).result ∧
      (scheduled_workflow_job ph nSites).error_notified = none) ∧
    ((run_workflow_once ph nSites).summary_delivered = none ∧
      (run_workflow_once ph nSites).exit_code = some 1 ∧
      (run_workflow_once ph nSites).generation_invoked = false ∧
      (run_workflow_once ph nSites).output_invoked = false) := by
  simp [scheduled_workflow_job, run_workflow_once, hs, hc, ha]

/-- Witness for C4 (amended) at the concrete empty-topics phases. -/
theorem C4_no_topics_amended_witness :
    ((scheduled_workflow_job phasesNoTopics 8).result =
        some { articles := [], sources_monitored := 8, success := false,
               error_message := some "No topics selected from analysis" } ∧
      (scheduled_workflow_job phasesNoTopics 8).generation_invoked = false ∧
      (scheduled_workflow_job phasesNoTopics 8).output_invoked = false ∧
      (scheduled_workflow_job phasesNoTopics 8).summary_delivered =
        (scheduled_workflow_job phasesNoTopics 8).result ∧
      (scheduled_workflow_job phasesNoTopics 8).error_notified = none) ∧
    ((run_workflow_once phasesNoTopics 8).summary_delivered = none ∧
      (run_workflow_once phasesNoTopics 8).exit_code = some 1 ∧
      (run_workflow_once phasesNoTopics 8).generation_invoked = false ∧
      (run_workflow_once phasesNoTopics 8).output_invoked = false) :=
  C4_no_topics_amended phasesNoTopics 8 [] rfl [] rfl rfl

/-- Claim C5, counterexample: with one selected topic whose generation
fails (the Generate stage returns zero articles), the scheduled
orchestrator reports `success = true` with no error message and still
invokes the Output stage — there is no `succeeded=false` terminal state
with message "No articles generated". -/
theorem C5_counterexample :
    (scheduled_workflow_job phasesZeroArticles 8).result =
      some { articles := [], sources_monitored := 8, success := true,
             error_message := none } ∧
    (scheduled_workflow_job phasesZeroArticles 8).result.map
        WorkflowResult.success ≠ some false ∧
    (scheduled_workflow_job phasesZeroArticles 8).output_invoked = true :=
  ⟨rfl, by decide, rfl⟩

/-- Claim C5 (amended): when the Generate stage yields zero articles the
orchestrator performs no zero-article check: it proceeds to the Output
stage with the empty list and ends the run with `success=true` and no
error message (the empty result is still delivered as a success
summary); no "No articles generated" soft-failure state exists in the
code. -/
theorem C5_zero_articles_amended (ph : PhaseOutcomes) (nSites : Nat)
    (s : List SearchResult) (hs : ph.search = .ok s)
    (c : List ScrapedContent) (hc : ph.scrape = .ok c)
    (topics : List Topic) (ha : ph.analysis = .ok topics)
    (hne : topics ≠ []) (hg : ph.generation topics = .ok [])
    (ho : ph.output [] = .ok ()) :
    (scheduled_workflow_job ph nSites).result =
      some { articles := [], sources_monitored := nSites, success := true,
             error_message := none } ∧
    (scheduled_workflow_job ph nSites).output_invoked = true ∧
    (scheduled_workflow_job ph nSites).summary_delivered =
      (scheduled_workflow_job ph nSites).result := by
  cases topics with
  | nil => exact absurd rfl hne
  | cons t ts => simp [scheduled_workflow_job, hs, hc, ha, hg, ho]

/-- Witness for C5 (amended) at the concrete zero-articles phases. -/
theorem C5_zero_articles_amended_witness :
    (scheduled_workflow_job phasesZeroArticles 8).result =
      some { articles := [], sources_monitored := 8, success := true,
             error_message := none } ∧
    (scheduled_workflow_job phasesZeroArticles 8).output_invoked = true ∧
    (scheduled_workflow_job phasesZeroArticles 8).summary_delivered =
      (scheduled_workflow_job phasesZeroArticles 8).result :=
  C5_zero_articles_amended phasesZeroArticles 8 [] rfl [] rfl
    [⟨"Sagra del pistacchio a Bronte", "evento", [], []⟩] rfl
    (by decide) rfl rfl

/-- Claim C6, counterexample: when the Analyze stage raises on a
malformed oracle response, the scheduled orchestrator catches the
exception but constructs no run result at all (the job returns `None`) —
it only triggers the error-notification delivery; no
`PipelineRunResult` with `succeeded=false` is returned. -/
theorem C6_counterexample :
    (scheduled_workflow_job phasesMalformed 8).result = none ∧
    (scheduled_workflow_job phasesMalformed 8).result.isSome = false ∧
    (scheduled_workflow_job phasesMalformed 8).error_notified =
      some "Errore workflow automatico: Expecting value: malformed oracle response" :=
  ⟨rfl, rfl, rfl⟩

/-- Claim C6 (amended): an oracle response that cannot be parsed as the
expected structured shape makes the Selection stage raise (never return
an empty list — even through its retry wrapper the final outcome is the
error); the orchestrator catches the exception, delivers no summary,
constructs no run result, and triggers the separate error-notification
delivery with the prefixed exception message. -/
theorem C6_malformed_oracle_amended (ph : PhaseOutcomes) (nSites : Nat)
    (s : List SearchResult) (hs : ph.search = .ok s)
    (c : List ScrapedContent) (hc : ph.scrape = .ok c)
    (e : String) (ha : ph.analysis = .error e) :
    analyzeTopicsOnce none =
      Except.error "Expecting value: malformed oracle response" ∧
    (analyze_topics fun _ => none).1 =
      Except.error "Expecting value: malformed oracle response" ∧
    (scheduled_workflow_job ph nSites).result = none ∧
    (scheduled_workflow_job ph nSites).summary_delivered = none ∧
    (scheduled_workflow_job ph nSites).error_notified =
      some ("Errore workflow automatico: " ++ e) := by
  refine ⟨rfl, rfl, ?_⟩
  simp [scheduled_workflow_job, hs, hc, ha, jobErrorTrace]

/-- Witness for C6 (amended) at the concrete malformed-response phases. -/
theorem C6_malformed_oracle_amended_witness :
    analyzeTopicsOnce none =
      Except.error "Expecting value: malformed oracle response" ∧
    (analyze_topics fun _ => none).1 =
      Except.error "Expecting value: malformed oracle response" ∧
    (scheduled_workflow_job phasesMalformed 8).result = none ∧
    (scheduled_workflow_job phasesMalformed 8).summary_delivered = none ∧
    (scheduled_workflow_job phasesMalformed 8).error_notified =
      some ("Errore workflow automatico: " ++
        "Expecting value: malformed oracle response") :=
  C6_malformed_oracle_amended phasesMalformed 8 [] rfl [] rfl
    "Expecting value: malformed oracle response" rfl

theorem processScrapeResults_timeout_foldl
    (rs : List (Option ScrapedContent)) (acc : ScrapeSummary) :
    (rs.foldl
      (fun acc r =>
        match r with
        | some c =>
          { acc with scraped := acc.scraped ++ [c],
                     successful := acc.successful + 1 }
        | none => { acc with failed := acc.failed + 1 })
      acc).timeout_count = acc.timeout_count := by
  induction rs generalizing acc with
  | nil => rfl
  | cons r rest ih =>
    cases r with
    | some c => simpa using ih _
    | none => simpa using ih _

/-- Claim C7: in the scrape stage every timed-out or failed source
contributes no output entry (four sources with one timeout yield exactly
three entries), but the summary tally does not record timeouts
separately: the `timeout_count` counter is initialised to zero and never
incremented, so the timed-out source is counted among the generic
failures and the timeout tally of every run — including the claim's own
4-sources-1-timeout scenario — is 0, not 1. -/
theorem C7_scrape_timeout_tally
    (sites : List (String × ScrapeOutcome)) :
    (scrape_sites_parallel sites).timeout_count = 0 ∧
    (scrape_sites_parallel
        [("https://gds.it/food", .success "t1" "c1"),
         ("https://livesicilia.it/food-beverage", .success "t2" "c2"),
         ("https://balarm.it/food", .timeout),
         ("https://blogsicilia.it", .success "t4" "c4")]).scraped.length = 3 ∧
    (scrape_sites_parallel
        [("https://gds.it/food", .success "t1" "c1"),
         ("https://livesicilia.it/food-beverage", .success "t2" "c2"),
         ("https://balarm.it/food", .timeout),
         ("https://blogsicilia.it", .success "t4" "c4")]).successful = 3 ∧
    (scrape_sites_parallel
        [("https://gds.it/food", .success "t1" "c1"),
         ("https://livesicilia.it/food-beverage", .success "t2" "c2"),
         ("https://balarm.it/food", .timeout),
         ("https://blogsicilia.it", .success "t4" "c4")]).failed = 1 ∧
    (scrape_sites_parallel
        [("https://gds.it/food", .success "t1" "c1"),
         ("https://livesicilia.it/food-beverage", .success "t2" "c2"),
         ("https://balarm.it/food", .timeout),
         ("https://blogsicilia.it", .success "t4" "c4")]).timeout_count = 0 := by
  refine ⟨?_, rfl, rfl, rfl, rfl⟩
  exact processScrapeResults_timeout_foldl _ _

/-- Claim C8: the sequential search block following the parallel fan-out
in `search_food_news` is not dead code — it executes unconditionally
after `asyncio.run`, so every configured query is issued to the oracle
twice (once by the parallel gather, once by the leftover sequential
loop) and its results are collected twice into the aggregated list
before deduplication. -/
theorem C8_search_block_runs_twice (oracle : String → List SearchResult) :
    (search_food_news oracle).2 = SEARCH_QUERIES ++ SEARCH_QUERIES ∧
    (search_food_news oracle).2.count "novità food sicilia" = 2 ∧
    (search_food_news oracle).2.count "ristoranti sicilia" = 2 ∧
    (search_food_news oracle).2.count "gastronomia siciliana" = 2 :=
  ⟨rfl, rfl, rfl, rfl⟩

/-- Claim C9, counterexample: five tokens survive the stopword/length
filter, so the trailing `[:5]` truncation cuts off the appended
`"Sicilia"` — the final list does not contain the domain literal, while
the claim asserts the append replaces the overflow slot so that it is
still contained. -/
theorem C9_counterexample :
    extractKeywords "pasta norma melanzane ricotta salata" =
      ["pasta", "norma", "melanzane", "ricotta", "salata"] ∧
    "Sicilia" ∉ extractKeywords "pasta norma melanzane ricotta salata" ∧
    "sicilia" ∉
      (extractKeywords "pasta norma melanzane ricotta salata").map
        pyToLower := by
  refine ⟨by decide, by decide, by decide⟩

/-- Claim C9 (amended): keyword extraction lowercases, splits on
whitespace, drops stopword tokens and tokens of length at most 2, then
appends `"Sicilia"` when absent case-insensitively, and only afterwards
truncates to 5 — so the result always has length at most 5 and keeps the
surviving tokens in original order, the domain literal is guaranteed
present only when fewer than 5 tokens survive the filter, and with 5 or
more surviving tokens the result is exactly the first five filtered
tokens (the appended literal, if any, is cut off by the truncation). -/
theorem C9_extract_keywords_amended (topic : String) :
    (extractKeywords topic).length ≤ 5 ∧
    ((filteredKeywords topic).length < 5 →
      ∃ k ∈ extractKeywords topic, pyToLower k = "sicilia") ∧
    (5 ≤ (filteredKeywords topic).length →
      extractKeywords topic = (filteredKeywords topic).take 5) := by
  by_cases hmem : "sicilia" ∈ (filteredKeywords topic).map pyToLower
  · have hdef : extractKeywords topic = (filteredKeywords topic).take 5 := by
      simp only [extractKeywords, if_pos hmem]
    refine ⟨?_, ?_, fun _ => hdef⟩
    · rw [hdef]; exact List.length_take_le 5 _
    · intro hlt
      rcases List.mem_map.mp hmem with ⟨k, hk, hkl⟩
      refine ⟨k, ?_, hkl⟩
      rw [hdef, List.take_of_length_le (Nat.le_of_lt hlt)]
      exact hk
  · have hdef : extractKeywords topic =
        (filteredKeywords topic ++ ["Sicilia"]).take 5 := by
      simp only [extractKeywords, if_neg hmem]
    refine ⟨?_, ?_, ?_⟩
    · rw [hdef]; exact List.length_take_le 5 _
    · intro hlt
      refine ⟨"Sicilia", ?_, by decide⟩
      rw [hdef, List.take_of_length_le
        (by simp only [List.length_append, List.length_singleton]; omega)]
      exact List.mem_append_right _ (List.mem_singleton.mpr rfl)
    · intro hge
      rw [hdef, List.take_append_of_le_length hge]

/-- Witness for C9 (amended): for the topic text `"cannoli"` a single
token survives the filter, so the extracted keyword list has length at
most 5 and contains the domain literal case-insensitively. -/
theorem C9_extract_keywords_amended_witness :
    (extractKeywords "cannoli").length ≤ 5 ∧
    ∃ k ∈ extractKeywords "cannoli", pyToLower k = "sicilia" :=
  ⟨(C9_extract_keywords_amended "cannoli").1,
   (C9_extract_keywords_amended "cannoli").2.1 (by decide)⟩

theorem retryFrom_le {α : Type} (call : Nat → Except String α)
    (attempt m : Nat) : (retryFrom call attempt m).2 ≤ m := by
  induction m generalizing attempt with
  | zero => simp [retryFrom]
  | succ k ih =>
    simp only [retryFrom]
    cases hcall : call attempt with
    | ok a => simp
    | error e =>
      by_cases hk : k = 0
      · simp [hk]
      · simpa [hk] using Nat.succ_le_succ (ih (attempt + 1))

/-- Claim C10, counterexample: a persistently failing oracle call inside
the Selection stage is invoked 3 times, not 1 — the failure of the first
invocation does not propagate immediately. -/
theorem C10_counterexample :
    (analyze_topics fun _ => none).2 = 3 ∧
    (analyze_topics fun _ => none).2 ≠ 1 :=
  ⟨rfl, by decide⟩

/-- Claim C10 (amended): the Selection stage's oracle call is wrapped in
`retry_api_call(max_attempts=3)`: a failing `analyze_topics` body is
automatically re-attempted, a persistent failure is invoked exactly 3
times before the last error propagates out of the stage, and no run of
the wrapper ever makes more than 3 calls. -/
theorem C10_selection_retry_amended
    (parsedAttempts : Nat → Option (List Topic))
    (hfail : ∀ k, parsedAttempts k = none) :
    (analyze_topics parsedAttempts).2 = 3 ∧
    (analyze_topics parsedAttempts).1 =
      Except.error "Expecting value: malformed oracle response" ∧
    ∀ g : Nat → Option (List Topic), (analyze_topics g).2 ≤ 3 := by
  refine ⟨?_, ?_, fun g => retryFrom_le _ 1 3⟩
  · simp [analyze_topics, retry_api_call, retryFrom, hfail 1, hfail 2,
      hfail 3, analyzeTopicsOnce]
  · simp [analyze_topics, retry_api_call, retryFrom, hfail 1, hfail 2,
      hfail 3, analyzeTopicsOnce]

/-- Witness for C10 (amended) at the persistently malformed oracle. -/
theorem C10_selection_retry_amended_witness :
    (analyze_topics fun _ => none).2 = 3 ∧
    (analyze_topics fun _ => none).1 =
      Except.error "Expecting value: malformed oracle response" ∧
    (analyze_topics fun _ => none).2 ≤ 3 :=
  ⟨(C10_selection_retry_amended (fun _ => none) (fun _ => rfl)).1,
   (C10_selection_retry_amended (fun _ => none) (fun _ => rfl)).2.1,
   (C10_selection_retry_amended (fun _ => none) (fun _ => rfl)).2.2
     (fun _ => none)⟩

end AllFood
